import Mathlib

/-!
Verification development for the VoiceLog task-management backend.

The definitions below are a shallow embedding of the policy code in
`agents/notification_manager.py`, `agents/cleanup_agents.py` and
`agents/monitor_agent.py`.  Wall-clock instants and Firestore timestamps are
modelled as `Int` seconds; local calendar dates as `Int` day numbers; Python
dictionaries as structures whose optional keys are `Option` fields; Python
values that are duck-typed on their class (native datetime vs. ISO string vs.
missing) as the `TimeVal` sum type.
-/

/-- A wall-clock reading, as produced by one `datetime.now()` call: the local
calendar date, the local hour (0-23) and the instant in seconds. -/
structure Clock where
  date : Int
  hour : Nat
  time : Int
deriving Repr, DecidableEq

/-- A notification/insight dictionary as read by the notification manager:
only the `type` and `priority` keys are consulted, each possibly absent
(`notification.get('type')`, `notification.get('priority', 'low')`). -/
structure PyNotif where
  ntype : Option String
  priority : Option String
deriving Repr, DecidableEq

/-- One `notification_history` entry `{type, priority, timestamp}` written by
`record_sent`; `type`/`priority` come from `.get` and may be `None`. -/
structure HistEntry where
  htype : Option String
  hpriority : Option String
  timestamp : Int
deriving Repr, DecidableEq

/-- The per-user notification state document
`users/{user_id}/notification_state/current`. -/
structure NotifState where
  sent_today : Nat
  last_reset : Int
  last_notification_time : Option Int
  notification_history : List HistEntry
deriving Repr, DecidableEq

/-- The fresh state synthesized by `_load_state` when no document exists. -/
def initial_state (today : Int) : NotifState :=
  { sent_today := 0
    last_reset := today
    last_notification_time := Option.none
    notification_history := [] }

/-- `NotificationManager._reset_daily_counter`: if `last_reset` differs from
the local today, zero `sent_today` and stamp `last_reset` (the mutated state
is saved; here the returned state is the persisted one). -/
def reset_daily_counter (c : Clock) (st : NotifState) : NotifState :=
  if st.last_reset ≠ c.date then
    { st with sent_today := 0, last_reset := c.date }
  else st

/-- `NotificationManager._is_duplicate`: some history entry of the same type
has a timestamp strictly within the last 24 hours. -/
def is_duplicate (c : Clock) (st : NotifState) (n : PyNotif) : Bool :=
  st.notification_history.any (fun e =>
    decide (c.time - 86400 < e.timestamp) && (e.htype == some (n.ntype.getD "")))

/-- Rules 1-5 of `NotificationManager.should_send_now`, evaluated on the
state as it stands after the daily rollover.  The nested Python
`if quiet: if priority != high:` is flattened to a conjunction; the constants
are `daily_budget = 6`, `min_gap_minutes = 120` (7200 s), quiet hours 22-7. -/
def admission_rules (c : Clock) (st : NotifState) (n : PyNotif) :
    (Bool × String) × NotifState :=
  let priority := n.priority.getD "low"
  if priority = "critical" then
    ((true, "Critical priority - sending immediately"), st)
  else if (22 ≤ c.hour ∨ c.hour < 7) ∧ priority ≠ "high" then
    ((false, "Quiet hours (22:00-7:00)"), st)
  else if 6 ≤ st.sent_today ∧ priority ≠ "high" then
    ((false, "Daily budget exhausted (" ++ toString st.sent_today ++ "/6)"), st)
  else
    match st.last_notification_time with
    | some t =>
      if c.time - t < 7200 ∧ ¬(priority = "high" ∨ priority = "critical") then
        ((false, "Too soon (wait " ++ toString ((7200 - (c.time - t)) / 60)
            ++ " more minutes)"), st)
      else if is_duplicate c st n then
        ((false, "Similar notification sent recently"), st)
      else ((true, "All checks passed"), st)
    | Option.none =>
      if is_duplicate c st n then
        ((false, "Similar notification sent recently"), st)
      else ((true, "All checks passed"), st)

/-- `NotificationManager.should_send_now`: run the daily rollover first, then
the admission rules; the second component is the state as persisted. -/
def should_send_now (c : Clock) (st : NotifState) (n : PyNotif) :
    (Bool × String) × NotifState :=
  admission_rules c (reset_daily_counter c st) n

/-- `NotificationManager.record_sent`: increment the counter, stamp the last
notification time, append one `{type, priority, timestamp}` entry and keep
only the last 50 entries (Python `[-50:]`). -/
def record_sent (c : Clock) (st : NotifState) (n : PyNotif) : NotifState :=
  let hist := st.notification_history ++ [⟨n.ntype, n.priority, c.time⟩]
  { st with
    sent_today := st.sent_today + 1
    last_notification_time := some c.time
    notification_history := hist.drop (hist.length - 50) }

/-- Substring test on character lists (used to state that a reason string
does or does not include a given fragment). -/
def substringOf (p : List Char) : List Char → Bool
  | [] => p.isEmpty
  | c :: rest => p.isPrefixOf (c :: rest) || substringOf p rest

-- ## Helper lemmas

theorem admission_rules_snd (c : Clock) (st : NotifState) (n : PyNotif) :
    (admission_rules c st n).2 = st := by
  unfold admission_rules
  repeat' first
    | rfl
    | split
    | dsimp only

theorem reset_daily_counter_idem (c : Clock) (st : NotifState) :
    reset_daily_counter c (reset_daily_counter c st) = reset_daily_counter c st := by
  unfold reset_daily_counter
  by_cases h : st.last_reset = c.date <;> simp [h]

theorem reset_daily_counter_last_reset (c : Clock) (st : NotifState) :
    (reset_daily_counter c st).last_reset = c.date ∨
      (reset_daily_counter c st = st ∧ st.last_reset = c.date) := by
  unfold reset_daily_counter
  by_cases h : st.last_reset = c.date <;> simp [h]

theorem reset_daily_counter_of_same_day (c : Clock) (st : NotifState)
    (h : st.last_reset = c.date) : reset_daily_counter c st = st := by
  simp [reset_daily_counter, h]

theorem record_sent_fold_sent_today (c : Clock) :
    ∀ (ns : List PyNotif) (st : NotifState),
      (ns.foldl (fun s n => record_sent c s n) st).sent_today
        = st.sent_today + ns.length := by
  intro ns
  induction ns with
  | nil => intro st; simp
  | cons n ns ih =>
    intro st
    simp only [List.foldl_cons, List.length_cons, ih]
    simp [record_sent]
    omega

-- ## Cleanup agent (`agents/cleanup_agents.py`)

/-- A timestamp-like value as stored in a task/folder document: a native
datetime (or Firestore timestamp, which also carries `astimezone`), an
ISO-8601 string together with the result of `datetime.fromisoformat` on it
(`Option.none` when parsing would raise), or a missing field / Python `None`. -/
inductive TimeVal where
  | dt (t : Int)
  | str (s : String) (parsed : Option Int)
  | none
deriving Repr, DecidableEq

/-- Python truthiness of such a value (`None` and `""` are falsy). -/
def TimeVal.truthy : TimeVal → Bool
  | .dt _ => true
  | .str s _ => !(s == "")
  | .none => false

/-- Python `hasattr(v, 'astimezone')`: true exactly for datetime values. -/
def TimeVal.hasAstimezone : TimeVal → Bool
  | .dt _ => true
  | _ => false

/-- A task document as consumed by `CleanupAgent.run` (`name` is accessed
unconditionally there, so it is a plain field). -/
structure CTask where
  id : String
  name : String
  completed : Bool
  is_high_priority : Bool
  due_date : TimeVal
  created_at : TimeVal
  folder : Option String
deriving Repr, DecidableEq

/-- The disposition `CleanupAgent.run` gives one task: append it to
`tasks_to_delete` with a reason, append it to `high_priority_stale_tasks`
with a reason, or leave it untouched. -/
inductive CAction where
  | delete (reason : String)
  | escalate (reason : String)
  | noAction
deriving Repr, DecidableEq

def CAction.isDelete : CAction → Bool
  | .delete _ => true
  | _ => false

def CAction.isEscalate : CAction → Bool
  | .escalate _ => true
  | _ => false

/-- The body of the task loop in `CleanupAgent.run` (`now` in UTC seconds):
completed tasks are skipped; tasks whose `created_at` lacks `astimezone` are
skipped; a truthy datetime `due_date` in the past triggers rule 1 and skips
rule 2 (`continue`); otherwise rule 2 fires when `created_at` is older than
the 10-day stale threshold (`864000` s); day counts are `timedelta.days`. -/
def classify_task (now : Int) (t : CTask) : CAction :=
  if t.completed then .noAction
  else
    match t.created_at with
    | .dt c =>
      let rule2 : CAction :=
        if c < now - 864000 then
          let days_old := (now - c) / 86400
          if t.is_high_priority then
            .escalate ("Untouched for " ++ toString days_old ++ " days (high priority)")
          else
            .delete ("Untouched for " ++ toString days_old ++ " days")
        else .noAction
      if t.due_date.truthy then
        match t.due_date with
        | .dt d =>
          if d < now then
            let days_overdue := (now - d) / 86400
            if t.is_high_priority then
              .escalate ("Overdue by " ++ toString days_overdue ++ " days (high priority)")
            else
              .delete ("Overdue by " ++ toString days_overdue ++ " days")
          else rule2
        | _ => rule2
      else rule2
    | _ => .noAction

/-- The insight document built by
`CleanupAgent._generate_high_priority_insight` (the fields its callers and
the claims consult). -/
structure CInsight where
  itype : String
  priority : String
  task_id : String
  task_name : String
  reason : String
  action_required : Bool
  folder : String
deriving Repr, DecidableEq

def mk_high_priority_insight (t : CTask) (reason : String) : CInsight :=
  { itype := "high_priority_stale_warning"
    priority := "high"
    task_id := t.id
    task_name := t.name
    reason := reason
    action_required := true
    folder := t.folder.getD "unknown" }

/-- A folder document as consumed by `_cleanup_empty_folders`. -/
structure Folder where
  id : String
  created_at : TimeVal
deriving Repr, DecidableEq

/-- The body of the folder loop in `CleanupAgent._cleanup_empty_folders`:
delete (return the folder id) when no task references the folder and its
`created_at` is a truthy datetime older than the 10-day stale threshold. -/
def folder_decision (now : Int) (tasks : List CTask) (f : Folder) : Option String :=
  let tasks_in_folder := tasks.filter (fun t => t.folder == some f.id)
  if tasks_in_folder.isEmpty then
    if f.created_at.truthy && f.created_at.hasAstimezone then
      match f.created_at with
      | .dt c => if c < now - 864000 then some f.id else Option.none
      | _ => Option.none
    else Option.none
  else Option.none

/-- `CleanupAgent._cleanup_empty_folders` over the user's folders; the Python
function returns `deleted_count`, here the list of deleted folder ids (the
count is its length). -/
def cleanup_empty_folders (now : Int) (tasks : List CTask) (folders : List Folder) :
    List String :=
  folders.filterMap (folder_decision now tasks)

/-- The record the spec says `run_cleanup_cycle` returns. -/
structure CleanupSummary where
  deleted_tasks : Nat
  escalated : Nat
  deleted_folders : Nat
deriving Repr, DecidableEq

/-- The observable effects of one `CleanupAgent.run` call: tasks deleted from
the store (id, reason), escalation insights written, folder ids deleted, and
the Python return value of the method. -/
structure CleanupResult where
  deleted : List (String × String)
  insights : List CInsight
  folders_deleted : List String
  returned : Option CleanupSummary
deriving Repr, DecidableEq

namespace CleanupAgent

/-- `CleanupAgent.run`: classify every task (building `tasks_to_delete` and
`high_priority_stale_tasks` in snapshot order), delete the former, generate
one insight for each of the latter, then reclaim empty folders.  The Python
method ends without a `return` statement, so its value is `None`. -/
def run (now : Int) (tasks : List CTask) (folders : List Folder) : CleanupResult :=
  let tasks_to_delete := tasks.filterMap (fun t =>
    match classify_task now t with
    | CAction.delete r => some (t, r)
    | _ => Option.none)
  let high_priority_stale_tasks := tasks.filterMap (fun t =>
    match classify_task now t with
    | CAction.escalate r => some (t, r)
    | _ => Option.none)
  { deleted := tasks_to_delete.map (fun p => (p.1.id, p.2))
    insights := high_priority_stale_tasks.map (fun p => mk_high_priority_insight p.1 p.2)
    folders_deleted := cleanup_empty_folders now tasks folders
    returned := Option.none }

end CleanupAgent

-- ## Monitor agent (`agents/monitor_agent.py`)

/-- A task document as consumed by `MonitorAgent` (`t['name']` can raise a
`KeyError` in `check_high_priority_tasks`, so `name` is optional here). -/
structure MTask where
  id : String
  name : Option String
  completed : Bool
  is_high_priority : Bool
  created_at : TimeVal
  completed_at : TimeVal
  folder : Option String
deriving Repr, DecidableEq

/-- An insight record as consulted by the admission controller; the
type-specific `data` payload is never read by the policy code modelled here
and is omitted. -/
structure MInsight where
  itype : String
  priority : String
deriving Repr, DecidableEq

namespace MonitorAgent

/-- `MonitorAgent.check_high_priority_tasks`: one `priority_alert` insight
when at least 3 incomplete high-priority tasks exist.  The task names of the
first five are read with `t['name']`, which raises `KeyError` on a task
without that key — there is no try/except around it, so the error escapes. -/
def check_high_priority_tasks (tasks : List MTask) : Except String (List MInsight) :=
  let incomplete_priority := tasks.filter (fun t => t.is_high_priority && !t.completed)
  if 3 ≤ incomplete_priority.length then
    match (incomplete_priority.take 5).mapM (fun t => t.name) with
    | some _ => Except.ok [{ itype := "priority_alert", priority := "high" }]
    | Option.none => Except.error "KeyError: name"
  else Except.ok []

/-- `MonitorAgent.check_folder_activity`: one `folder_focus_insight` whenever
the folder counter is nonempty, i.e. whenever there is at least one task
(every task falls into some folder, defaulting to `No Folder`). -/
def check_folder_activity (tasks : List MTask) : List MInsight :=
  if tasks.isEmpty then []
  else [{ itype := "folder_focus_insight", priority := "low" }]

/-- `MonitorAgent.check_completion_patterns`: needs at least 3 completed
tasks with a truthy `completed_at`; hour extraction calls `.astimezone`,
which raises (and is caught per-task) on non-datetime values, so only
datetime entries contribute; one `productivity_tip` when any hour survives. -/
def check_completion_patterns (tasks : List MTask) : List MInsight :=
  let completed_tasks := tasks.filter (fun t => t.completed && t.completed_at.truthy)
  if completed_tasks.length < 3 then []
  else
    let hours := completed_tasks.filterMap (fun t =>
      match t.completed_at with
      | TimeVal.dt x => some x
      | _ => Option.none)
    if hours.isEmpty then []
    else [{ itype := "productivity_tip", priority := "low" }]

/-- `MonitorAgent.check_stale_tasks` (3-day threshold, `259200` s): skip
completed tasks, falsy `created_at`, ISO strings `fromisoformat` rejects, and
non-datetime non-string values; the per-task body is wrapped in try/except,
so a task whose `name` key is missing is silently skipped there; one
`stale_task_warning` when any stale task is collected. -/
def check_stale_tasks (now : Int) (tasks : List MTask) : List MInsight :=
  let stale_tasks_found := tasks.filterMap (fun t =>
    if t.completed then Option.none
    else if !t.created_at.truthy then Option.none
    else
      let parsed : Option Int :=
        match t.created_at with
        | TimeVal.str _ p => p
        | TimeVal.dt x => some x
        | TimeVal.none => Option.none
      match parsed with
      | Option.none => Option.none
      | some v =>
        if v < now - 259200 then
          match t.name with
          | some nm => some (t.id, nm)
          | Option.none => Option.none
        else Option.none)
  if stale_tasks_found.isEmpty then []
  else [{ itype := "stale_task_warning", priority := "medium" }]

/-- `MonitorAgent.save_insights_to_firebase`: every insight is saved, then
offered to the admission controller in generation order over the evolving
notification state; an accepted one is recorded via `record_sent`.  Returns
the per-insight decisions and the final state. -/
def save_insights (c : Clock) (st : NotifState) (insights : List MInsight) :
    List (MInsight × Bool × String) × NotifState :=
  insights.foldl
    (fun acc i =>
      let n : PyNotif := { ntype := some i.itype, priority := some i.priority }
      let r := should_send_now c acc.2 n
      if r.1.1 then
        (acc.1 ++ [(i, true, r.1.2)], record_sent c r.2 n)
      else
        (acc.1 ++ [(i, false, r.1.2)], r.2))
    ([], st)

/-- `MonitorAgent.run` for one user: early return on an empty snapshot, then
the four generators in source order, then the save/admission pass.  The four
generator calls are not individually guarded, so an exception in one
propagates and aborts the whole cycle. -/
def run (c : Clock) (tasks : List MTask) (st : NotifState) :
    Except String (List (MInsight × Bool × String) × NotifState) := do
  if tasks.isEmpty then
    Except.ok ([], st)
  else
    let a ← check_high_priority_tasks tasks
    let b := check_folder_activity tasks
    let d := check_completion_patterns tasks
    let e := check_stale_tasks c.time tasks
    Except.ok (save_insights c st (a ++ b ++ d ++ e))

end MonitorAgent

-- ## Claim theorems

theorem record_sent_history_length (c : Clock) (st : NotifState) (n : PyNotif) :
    (record_sent c st n).notification_history.length
      = min (st.notification_history.length + 1) 50 := by
  simp [record_sent]
  omega

theorem record_sent_fold_history_length (c : Clock) (n : PyNotif) :
    ∀ (k : Nat) (st : NotifState), st.notification_history.length ≤ 50 →
      ((List.range k).foldl (fun s _ => record_sent c s n) st).notification_history.length
        = min (st.notification_history.length + k) 50 := by
  intro k
  induction k with
  | zero => intro st h; simp; omega
  | succ k ih =>
    intro st h
    rw [List.range_succ, List.foldl_append]
    simp only [List.foldl_cons, List.foldl_nil, record_sent_history_length, ih st h]
    omega

/-- C2: `record_sent` appends exactly one `{type, priority, timestamp}` entry
and keeps only the 50 most recent entries (dropping the oldest first), so the
history length never exceeds 50, `should_send_now` and the daily rollover do
not touch the history, and recording 60 sends from an empty history leaves
exactly 50 entries. -/
theorem history_bounded_by_50 :
    (∀ c st n, ((record_sent c st n).notification_history).length ≤ 50)
    ∧ (∀ c st n, st.notification_history.length ≤ 49 →
        (record_sent c st n).notification_history
          = st.notification_history
              ++ [(⟨n.ntype, n.priority, c.time⟩ : HistEntry)])
    ∧ (∀ c st n, (record_sent c st n).notification_history
        = (st.notification_history
              ++ [(⟨n.ntype, n.priority, c.time⟩ : HistEntry)]).drop
            (st.notification_history.length + 1 - 50))
    ∧ (∀ c st n, (should_send_now c st n).2.notification_history
        = st.notification_history)
    ∧ (∀ c st, (reset_daily_counter c st).notification_history
        = st.notification_history)
    ∧ (((List.range 60).foldl
          (fun s _ => record_sent ⟨0, 12, 0⟩ s ⟨some "t", some "low"⟩)
          (initial_state 0)).notification_history.length = 50) := by
  refine ⟨?_, ?_, ?_, ?_, ?_, ?_⟩
  · intro c st n
    simp [record_sent, List.length_drop]
    omega
  · intro c st n h
    have h0 : st.notification_history.length + 1 - 50 = 0 := by omega
    simp only [record_sent, List.length_append, List.length_cons, List.length_nil,
      Nat.zero_add, h0, List.drop_zero]
  · intro c st n
    have h0 : st.notification_history.length + 1 - 50
        = st.notification_history.length - 49 := by omega
    simp only [record_sent, List.length_append, List.length_cons, List.length_nil,
      Nat.zero_add, h0]
  · intro c st n
    rw [should_send_now, admission_rules_snd]
    unfold reset_daily_counter
    by_cases h : st.last_reset = c.date <;> simp [h]
  · intro c st
    unfold reset_daily_counter
    by_cases h : st.last_reset = c.date <;> simp [h]
  · rw [record_sent_fold_history_length _ _ 60 _ (by simp [initial_state])]
    rfl

/-- C2 witness: from a 49-entry history, `record_sent` appends the new entry
(no eviction yet). -/
theorem history_bounded_by_50_witness :
    (record_sent ⟨0, 12, 7⟩
        ⟨0, 0, Option.none, List.replicate 49 ⟨some "t", some "low", 0⟩⟩
        ⟨some "u", some "low"⟩).notification_history
      = List.replicate 49 ⟨some "t", some "low", 0⟩ ++ [⟨some "u", some "low", 7⟩] := by
  exact history_bounded_by_50.2.1 ⟨0, 12, 7⟩
    ⟨0, 0, Option.none, List.replicate 49 ⟨some "t", some "low", 0⟩⟩
    ⟨some "u", some "low"⟩ (by simp)

/-- C4: `should_send_now` performs the daily rollover first — the persisted
state is exactly `reset_daily_counter` of the input (even on deny), the rules
are evaluated on that reset state, a stale `last_reset` forces
`sent_today = 0` and `last_reset = today`, and a repeated same-`now` call
leaves the state unchanged (the reset happens exactly once). -/
theorem daily_rollover_reset_and_idempotence :
    (∀ c st n, (should_send_now c st n).2 = reset_daily_counter c st)
    ∧ (∀ c st n, should_send_now c st n
        = should_send_now c (reset_daily_counter c st) n)
    ∧ (∀ c st, (reset_daily_counter c st).last_reset = c.date)
    ∧ (∀ c st n, st.last_reset ≠ c.date →
        (should_send_now c st n).2.sent_today = 0
          ∧ (should_send_now c st n).2.last_reset = c.date)
    ∧ (∀ c st n m, (should_send_now c (should_send_now c st n).2 m).2
        = (should_send_now c st n).2) := by
  have hsnd : ∀ c st n, (should_send_now c st n).2 = reset_daily_counter c st := by
    intro c st n
    rw [should_send_now, admission_rules_snd]
  refine ⟨hsnd, ?_, ?_, ?_, ?_⟩
  · intro c st n
    rw [should_send_now, should_send_now, reset_daily_counter_idem]
  · intro c st
    unfold reset_daily_counter
    by_cases h : st.last_reset = c.date <;> simp [h]
  · intro c st n h
    rw [hsnd]
    unfold reset_daily_counter
    simp [h]
  · intro c st n m
    rw [hsnd, hsnd, reset_daily_counter_idem]

/-- C4 witness: on a new calendar day (state last reset on day 3, now day 5)
the admission check zeroes `sent_today` and stamps the new date. -/
theorem daily_rollover_reset_and_idempotence_witness :
    (should_send_now ⟨5, 12, 0⟩ ⟨4, 3, Option.none, []⟩ ⟨some "t", some "low"⟩).2.sent_today = 0
      ∧ (should_send_now ⟨5, 12, 0⟩ ⟨4, 3, Option.none, []⟩ ⟨some "t", some "low"⟩).2.last_reset = 5 :=
  daily_rollover_reset_and_idempotence.2.2.2.1 ⟨5, 12, 0⟩ ⟨4, 3, Option.none, []⟩
    ⟨some "t", some "low"⟩ (by decide)

/-- C10: in the cleanup sweep a task whose `created_at` is not a native
datetime (an ISO string or a missing value) is never deleted or escalated —
even with a past `due_date` — and conversely any deleted or escalated task
has a native datetime `created_at`. -/
theorem invalid_created_at_skipped :
    (∀ now t s p, t.created_at = TimeVal.str s p →
        classify_task now t = CAction.noAction)
    ∧ (∀ now t, t.created_at = TimeVal.none →
        classify_task now t = CAction.noAction)
    ∧ (∀ now t a, (classify_task now t = CAction.delete a
          ∨ classify_task now t = CAction.escalate a) →
        ∃ cc, t.created_at = TimeVal.dt cc) := by
  refine ⟨?_, ?_, ?_⟩
  · intro now t s p h
    unfold classify_task
    by_cases hc : t.completed <;> simp [hc, h]
  · intro now t h
    unfold classify_task
    by_cases hc : t.completed <;> simp [hc, h]
  · intro now t a h
    match hcr : t.created_at with
    | TimeVal.dt cc => exact ⟨cc, rfl⟩
    | TimeVal.str s p =>
      exfalso
      unfold classify_task at h
      by_cases hc : t.completed <;> simp [hc, hcr] at h
    | TimeVal.none =>
      exfalso
      unfold classify_task at h
      by_cases hc : t.completed <;> simp [hc, hcr] at h

/-- C10 witness: an incomplete task with an ISO-string `created_at` and a
`due_date` 100 days in the past is skipped entirely. -/
theorem invalid_created_at_skipped_witness :
    classify_task 8640000
        ⟨"t1", "old report", false, false, TimeVal.dt 0,
          TimeVal.str "2025-01-01T00:00:00" (some 0), Option.none⟩
      = CAction.noAction :=
  invalid_created_at_skipped.1 8640000
    ⟨"t1", "old report", false, false, TimeVal.dt 0,
      TimeVal.str "2025-01-01T00:00:00" (some 0), Option.none⟩
    "2025-01-01T00:00:00" (some 0) rfl

/-- C9 (code bug): `MonitorAgent.run` does not isolate generator failures.
With three incomplete high-priority tasks one of which lacks the `name` key,
`check_high_priority_tasks` raises `KeyError`, the exception propagates, and
the whole cycle aborts — although `check_stale_tasks` alone would still have
produced a `stale_task_warning` insight over the same snapshot, it is never
run and nothing is saved or offered to the admission controller. -/
theorem generator_failure_aborts_monitor_cycle :
    MonitorAgent.run ⟨10, 12, 864000⟩
        [⟨"1", some "alpha", false, true, TimeVal.dt 0, TimeVal.none, Option.none⟩,
         ⟨"2", Option.none, false, true, TimeVal.dt 0, TimeVal.none, Option.none⟩,
         ⟨"3", some "gamma", false, true, TimeVal.dt 0, TimeVal.none, Option.none⟩]
        (initial_state 10)
      = Except.error "KeyError: name"
    ∧ MonitorAgent.check_stale_tasks 864000
        [⟨"1", some "alpha", false, true, TimeVal.dt 0, TimeVal.none, Option.none⟩,
         ⟨"2", Option.none, false, true, TimeVal.dt 0, TimeVal.none, Option.none⟩,
         ⟨"3", some "gamma", false, true, TimeVal.dt 0, TimeVal.none, Option.none⟩]
      = [{ itype := "stale_task_warning", priority := "medium" }] :=
  ⟨rfl, rfl⟩

/-- C6: in the cleanup sweep, completed tasks are immune; an incomplete task
(with a datetime `created_at`) whose datetime `due_date` is past is escalated
when high-priority and otherwise auto-deleted with reason `Overdue by N days`
(whole days, independently of how stale `created_at` is — rule 2 is not
evaluated); with no due date or a future one, a task older than 10 days is
escalated (`... (high priority)`) or auto-deleted with `Untouched for N
days`, and a younger one gets no action; each escalation is exactly one
`high_priority_stale_warning` insight in `CleanupAgent.run`. -/
theorem cleanup_classification_rules :
    (∀ now t, t.completed = true → classify_task now t = CAction.noAction)
    ∧ (∀ now t cc d, t.completed = false → t.created_at = TimeVal.dt cc →
        t.due_date = TimeVal.dt d → d < now → t.is_high_priority = true →
        classify_task now t
          = CAction.escalate
              ("Overdue by " ++ toString ((now - d) / 86400) ++ " days (high priority)"))
    ∧ (∀ now t cc d, t.completed = false → t.created_at = TimeVal.dt cc →
        t.due_date = TimeVal.dt d → d < now → t.is_high_priority = false →
        classify_task now t
          = CAction.delete ("Overdue by " ++ toString ((now - d) / 86400) ++ " days"))
    ∧ (∀ now t cc, t.completed = false → t.created_at = TimeVal.dt cc →
        (t.due_date = TimeVal.none ∨ ∃ d, t.due_date = TimeVal.dt d ∧ now ≤ d) →
        cc < now - 864000 →
        classify_task now t
          = if t.is_high_priority then
              CAction.escalate
                ("Untouched for " ++ toString ((now - cc) / 86400) ++ " days (high priority)")
            else
              CAction.delete ("Untouched for " ++ toString ((now - cc) / 86400) ++ " days"))
    ∧ (∀ now t cc, t.completed = false → t.created_at = TimeVal.dt cc →
        (t.due_date = TimeVal.none ∨ ∃ d, t.due_date = TimeVal.dt d ∧ now ≤ d) →
        now - 864000 ≤ cc →
        classify_task now t = CAction.noAction)
    ∧ (∀ t r, (mk_high_priority_insight t r).itype = "high_priority_stale_warning")
    ∧ (∀ now tasks folders, (CleanupAgent.run now tasks folders).insights
        = tasks.filterMap (fun t =>
            match classify_task now t with
            | CAction.escalate r => some (mk_high_priority_insight t r)
            | _ => Option.none)) := by
  refine ⟨?_, ?_, ?_, ?_, ?_, ?_, ?_⟩
  · intro now t h
    simp [classify_task, h]
  · intro now t cc d hc hcr hdue hlt hp
    simp [classify_task, hc, hcr, hdue, TimeVal.truthy, hlt, hp]
  · intro now t cc d hc hcr hdue hlt hp
    simp [classify_task, hc, hcr, hdue, TimeVal.truthy, hlt, hp]
  · intro now t cc hc hcr hdue hstale
    rcases hdue with hdue | ⟨d, hdue, hge⟩
    · simp [classify_task, hc, hcr, hdue, TimeVal.truthy, hstale]
    · simp [classify_task, hc, hcr, hdue, TimeVal.truthy, not_lt.mpr hge, hstale]
  · intro now t cc hc hcr hdue hyoung
    rcases hdue with hdue | ⟨d, hdue, hge⟩
    · simp [classify_task, hc, hcr, hdue, TimeVal.truthy, not_lt.mpr hyoung]
    · simp [classify_task, hc, hcr, hdue, TimeVal.truthy, not_lt.mpr hge,
        not_lt.mpr hyoung]
  · intro t r
    rfl
  · intro now tasks folders
    unfold CleanupAgent.run
    dsimp only
    rw [List.map_filterMap]
    congr 1
    funext t
    cases classify_task now t <;> rfl

/-- C6 witness: an incomplete, non-priority task due 100000 seconds ago
(created at time 0) is auto-deleted with reason `Overdue by 1 days`. -/
theorem cleanup_classification_rules_witness :
    classify_task 1000000
        ⟨"t1", "groceries", false, false, TimeVal.dt 900000, TimeVal.dt 0, Option.none⟩
      = CAction.delete ("Overdue by " ++ toString ((1000000 - 900000 : Int) / 86400) ++ " days") :=
  cleanup_classification_rules.2.2.1 1000000
    ⟨"t1", "groceries", false, false, TimeVal.dt 900000, TimeVal.dt 0, Option.none⟩
    0 900000 rfl rfl rfl (by decide) rfl

/-- C7: in the folder-reclamation pass a folder is deleted exactly when no
task references it and its `created_at` is a datetime more than 10 days old;
an empty younger folder and any folder with a task are retained. -/
theorem folder_reclamation_iff :
    (∀ now tasks f, folder_decision now tasks f = some f.id ↔
        ((∀ t, t ∈ tasks → ¬t.folder = some f.id)
          ∧ ∃ cc, f.created_at = TimeVal.dt cc ∧ cc < now - 864000))
    ∧ (∀ now tasks folders, cleanup_empty_folders now tasks folders
        = folders.filterMap (folder_decision now tasks)) := by
  constructor
  · intro now tasks f
    have hempty : ((tasks.filter (fun t => t.folder == some f.id)).isEmpty = true)
        ↔ (∀ t, t ∈ tasks → ¬t.folder = some f.id) := by
      rw [List.isEmpty_iff, List.filter_eq_nil_iff]
      constructor
      · intro h t ht hf
        exact absurd (by simp [hf]) (h t ht)
      · intro h t ht hf
        exact h t ht (by simpa using hf)
    unfold folder_decision
    by_cases he : (tasks.filter (fun t => t.folder == some f.id)).isEmpty
    · rw [if_pos he]
      match hcr : f.created_at with
      | TimeVal.dt cc =>
        simp only [hcr, TimeVal.truthy, TimeVal.hasAstimezone, Bool.and_self, if_true]
        by_cases hold : cc < now - 864000
        · rw [if_pos hold]
          constructor
          · intro _
            exact ⟨hempty.mp he, cc, rfl, hold⟩
          · intro _
            rfl
        · rw [if_neg hold]
          constructor
          · intro h
            exact absurd h (by simp)
          · rintro ⟨-, cc', hdt, hlt⟩
            cases hdt
            exact absurd hlt hold
      | TimeVal.str s p =>
        simp only [hcr, TimeVal.truthy, TimeVal.hasAstimezone, Bool.and_false,
          Bool.false_eq_true, if_false]
        constructor
        · intro h
          exact absurd h (by simp)
        · rintro ⟨-, cc', hdt, -⟩
          cases hdt
      | TimeVal.none =>
        simp only [hcr, TimeVal.truthy, TimeVal.hasAstimezone, Bool.false_and,
          Bool.false_eq_true, if_false]
        constructor
        · intro h
          exact absurd h (by simp)
        · rintro ⟨-, cc', hdt, -⟩
          cases hdt
    · rw [if_neg he]
      constructor
      · intro h
        exact absurd h (by simp)
      · rintro ⟨hall, -⟩
        exact absurd (hempty.mpr hall) he
  · intro now tasks folders
    rfl

/-- C7 witness: a folder nobody references, created 20 days before `now`, is
deleted by the reclamation pass. -/
theorem folder_reclamation_iff_witness :
    folder_decision 1728000 [] ⟨"f1", TimeVal.dt 0⟩ = some "f1" :=
  (folder_reclamation_iff.1 1728000 [] ⟨"f1", TimeVal.dt 0⟩).mpr
    ⟨fun t ht => absurd ht (List.not_mem_nil t), ⟨0, rfl, by decide⟩⟩

theorem length_filterMap_eq_length_filter {α β : Type} (f : α → Option β)
    (p : α → Bool) (h : ∀ a, (f a).isSome = p a) :
    ∀ l : List α, (l.filterMap f).length = (l.filter p).length := by
  intro l
  induction l with
  | nil => rfl
  | cons a l ih =>
    have ha := h a
    cases hfa : f a with
    | none =>
      rw [hfa] at ha
      simp only [List.filterMap_cons, hfa, List.filter_cons, ← ha, Option.isSome]
      exact ih
    | some b =>
      rw [hfa] at ha
      simp only [List.filterMap_cons, hfa, List.filter_cons, ← ha, Option.isSome]
      simp [ih]

/-- C8 (amended): `CleanupAgent.run` does compute the three per-cycle counts
— the deleted tasks are exactly the delete-classified ones, the escalation
insights exactly the escalate-classified ones, the deleted folders exactly
the reclamation pass's output — but the Python method ends without a
`return`, so the caller receives `None`, not a
`{deleted_tasks, escalated, deleted_folders}` record. -/
theorem cleanup_run_counts_and_return_value :
    ∀ now tasks folders,
      (CleanupAgent.run now tasks folders).returned = Option.none
      ∧ (CleanupAgent.run now tasks folders).deleted.length
          = (tasks.filter (fun t => (classify_task now t).isDelete)).length
      ∧ (CleanupAgent.run now tasks folders).insights.length
          = (tasks.filter (fun t => (classify_task now t).isEscalate)).length
      ∧ (CleanupAgent.run now tasks folders).folders_deleted
          = cleanup_empty_folders now tasks folders := by
  intro now tasks folders
  refine ⟨rfl, ?_, ?_, rfl⟩
  · unfold CleanupAgent.run
    dsimp only
    rw [List.length_map]
    exact length_filterMap_eq_length_filter _ _
      (fun t => by cases classify_task now t <;> rfl) tasks
  · unfold CleanupAgent.run
    dsimp only
    rw [List.length_map]
    exact length_filterMap_eq_length_filter _ _
      (fun t => by cases classify_task now t <;> rfl) tasks

/-- C8 counterexample: on a snapshot where the sweep does delete one stale
task, `CleanupAgent.run` still returns `None` — it never produces the
`{deleted_tasks, escalated, deleted_folders}` record the claim describes. -/
theorem cleanup_run_returns_no_record :
    (CleanupAgent.run 1728000
        [⟨"t1", "old", false, false, TimeVal.none, TimeVal.dt 0, Option.none⟩]
        []).returned = Option.none
    ∧ (CleanupAgent.run 1728000
        [⟨"t1", "old", false, false, TimeVal.none, TimeVal.dt 0, Option.none⟩]
        []).deleted.length = 1 :=
  ⟨rfl, rfl⟩

/-- C3: a critical insight is always sent with no further checks; in the
quiet window [22,24) ∪ [0,7) any non-high non-critical insight is denied
with the reason naming the window; a high-priority insight passes the
quiet-hours rule (its decision at hour 23 equals its decision at hour 12);
and at hour 8 the quiet-hours rule denies nothing (the decision equals the
decision at hour 12 for every priority and state). -/
theorem critical_override_and_quiet_hours :
    (∀ (c : Clock) (st : NotifState) (n : PyNotif),
        n.priority.getD "low" = "critical" →
        should_send_now c st n
          = ((true, "Critical priority - sending immediately"), reset_daily_counter c st))
    ∧ (∀ (c : Clock) (st : NotifState) (n : PyNotif),
        ((22 ≤ c.hour ∧ c.hour < 24) ∨ c.hour < 7) →
        n.priority.getD "low" ≠ "high" → n.priority.getD "low" ≠ "critical" →
        (should_send_now c st n).1 = (false, "Quiet hours (22:00-7:00)"))
    ∧ (∀ (d tm : Int) (st : NotifState) (n : PyNotif),
        n.priority.getD "low" = "high" →
        should_send_now ⟨d, 23, tm⟩ st n = should_send_now ⟨d, 12, tm⟩ st n)
    ∧ (∀ (d tm : Int) (st : NotifState) (n : PyNotif),
        should_send_now ⟨d, 8, tm⟩ st n = should_send_now ⟨d, 12, tm⟩ st n) := by
  refine ⟨?_, ?_, ?_, ?_⟩
  · intro c st n h
    unfold should_send_now admission_rules
    simp only [h]
    rw [if_pos trivial]
  · intro c st n hw hh hc
    have hw' : 22 ≤ c.hour ∨ c.hour < 7 := by
      rcases hw with ⟨h1, -⟩ | h1
      · exact Or.inl h1
      · exact Or.inr h1
    unfold should_send_now admission_rules
    rw [if_neg hc, if_pos ⟨hw', hh⟩]
  · intro d tm st n h
    simp [should_send_now, admission_rules, reset_daily_counter, is_duplicate, h]
  · intro d tm st n
    by_cases hc : n.priority.getD "low" = "critical"
    · simp [should_send_now, admission_rules, reset_daily_counter, hc]
    · simp [should_send_now, admission_rules, reset_daily_counter, is_duplicate, hc]

/-- C3 witness: a low-priority insight at local hour 23 with a fresh state is
denied with the quiet-hours reason. -/
theorem critical_override_and_quiet_hours_witness :
    (should_send_now ⟨0, 23, 0⟩ (initial_state 0) ⟨some "t", some "low"⟩).1
      = (false, "Quiet hours (22:00-7:00)") :=
  critical_override_and_quiet_hours.2.1 ⟨0, 23, 0⟩ (initial_state 0)
    ⟨some "t", some "low"⟩ (Or.inl (by decide)) (by decide) (by decide)

theorem isPrefixOf_append_self (p r : List Char) : p.isPrefixOf (p ++ r) = true := by
  induction p with
  | nil => simp [List.isPrefixOf]
  | cons a as ih => simp [List.isPrefixOf, ih]

theorem substringOf_self_append (p post : List Char) :
    substringOf p (p ++ post) = true := by
  cases p with
  | nil =>
    cases post with
    | nil => rfl
    | cons c rest => simp [substringOf, List.isPrefixOf]
  | cons a as =>
    have h : List.isPrefixOf (a :: as) (a :: (as ++ post)) = true :=
      isPrefixOf_append_self (a :: as) post
    simp [substringOf, List.cons_append, List.append_eq, h]

theorem substringOf_append (pre p post : List Char) :
    substringOf p (pre ++ (p ++ post)) = true := by
  induction pre with
  | nil => simpa using substringOf_self_append p post
  | cons c pre ih => simp [substringOf, ih]

theorem substringOf_ratio (k : Nat) :
    substringOf ((toString k ++ "/6").data)
      (("Daily budget exhausted (" ++ toString k ++ "/6)").data) = true := by
  have h36 : ("/6)" : String).data = ("/6" : String).data ++ (")" : String).data := rfl
  have hd : ("Daily budget exhausted (" ++ toString k ++ "/6)").data
      = ("Daily budget exhausted (" : String).data
          ++ (((toString k ++ "/6").data) ++ (")" : String).data) := by
    simp [String.data_append, h36, List.append_assoc]
  rw [hd]
  exact substringOf_append _ _ _

/-- C1 (amended): replaying N sends recorded by `record_sent` from a
zero-count state on the same local day leaves `sent_today = N`; and whenever
`sent_today >= 6` with `last_reset` equal to the current local date and the
local hour outside the quiet window, `should_send_now` on a non-high
non-critical insight denies with a reason that includes the
`sent_today/daily_budget` ratio. -/
theorem budget_monotonicity_outside_quiet_hours :
    (∀ (c : Clock) (st : NotifState) (ns : List PyNotif), st.sent_today = 0 →
        (ns.foldl (fun s n => record_sent c s n) st).sent_today = ns.length)
    ∧ (∀ (c : Clock) (st : NotifState) (n : PyNotif),
        st.last_reset = c.date → 6 ≤ st.sent_today →
        n.priority.getD "low" ≠ "high" → n.priority.getD "low" ≠ "critical" →
        ¬(22 ≤ c.hour ∨ c.hour < 7) →
        (should_send_now c st n).1
            = (false, "Daily budget exhausted (" ++ toString st.sent_today ++ "/6)")
          ∧ substringOf ((toString st.sent_today ++ "/6").data)
              (((should_send_now c st n).1.2).data) = true) := by
  constructor
  · intro c st ns h0
    rw [record_sent_fold_sent_today, h0]
    omega
  · intro c st n hd h6 hh hc hq
    have hqc : ¬((22 ≤ c.hour ∨ c.hour < 7) ∧ n.priority.getD "low" ≠ "high") :=
      fun hx => hq hx.1
    have hres : (should_send_now c st n).1
        = (false, "Daily budget exhausted (" ++ toString st.sent_today ++ "/6)") := by
      unfold should_send_now admission_rules
      rw [reset_daily_counter_of_same_day c st hd, if_neg hc, if_neg hqc,
        if_pos ⟨h6, hh⟩]
    refine ⟨hres, ?_⟩
    rw [hres]
    exact substringOf_ratio st.sent_today

/-- C1 counterexample: with the daily budget already exhausted
(`sent_today = 6` on the current day) but the clock at local hour 23, the
denial reason is the quiet-hours message, which does not include the `6/6`
budget ratio — refuting the unconditional form of the claim. -/
theorem quiet_hours_denial_masks_budget_reason :
    (should_send_now ⟨0, 23, 0⟩ ⟨6, 0, Option.none, []⟩ ⟨some "t", some "low"⟩).1
      = (false, "Quiet hours (22:00-7:00)")
    ∧ substringOf (("6/6" : String).data) (("Quiet hours (22:00-7:00)" : String).data)
        = false :=
  ⟨rfl, rfl⟩

/-- C1 witness: with `sent_today = 6` at noon, the budget rule denies with
the `6/6` ratio in the reason. -/
theorem budget_monotonicity_outside_quiet_hours_witness :
    (should_send_now ⟨0, 12, 0⟩ ⟨6, 0, Option.none, []⟩ ⟨some "t", some "low"⟩).1
      = (false, "Daily budget exhausted (" ++ toString (6 : Nat) ++ "/6)") :=
  (budget_monotonicity_outside_quiet_hours.2 ⟨0, 12, 0⟩ ⟨6, 0, Option.none, []⟩
    ⟨some "t", some "low"⟩ rfl (by decide) (by decide) (by decide) (by decide)).1

/-- C5 (amended): outside quiet hours, within budget and on the current day,
a non-high non-critical insight arriving less than 120 minutes after
`last_notification_time` is denied with the remaining whole minutes
(`(min_gap - gap)` floor-divided into minutes, so a 30-minute gap leaves
90); once the gap reaches 120 minutes the minimum-gap rule denies nothing:
the decision is the one obtained with no `last_notification_time` at all. -/
theorem minimum_gap_denial_outside_quiet_hours :
    (∀ (c : Clock) (st : NotifState) (n : PyNotif) (t : Int),
        st.last_reset = c.date → st.sent_today < 6 →
        n.priority.getD "low" ≠ "high" → n.priority.getD "low" ≠ "critical" →
        ¬(22 ≤ c.hour ∨ c.hour < 7) →
        st.last_notification_time = some t → c.time - t < 7200 →
        (should_send_now c st n).1
          = (false, "Too soon (wait " ++ toString ((7200 - (c.time - t)) / 60)
              ++ " more minutes)"))
    ∧ (∀ (c : Clock) (st : NotifState) (n : PyNotif) (t : Int),
        st.last_notification_time = some t → 7200 ≤ c.time - t →
        (should_send_now c st n).1
          = (should_send_now c { st with last_notification_time := Option.none } n).1)
    ∧ ((7200 - 1800 : Int) / 60 = 90) := by
  refine ⟨?_, ?_, by decide⟩
  · intro c st n t hd h6 hh hc hq hl hgap
    have hqc : ¬((22 ≤ c.hour ∨ c.hour < 7) ∧ n.priority.getD "low" ≠ "high") :=
      fun hx => hq hx.1
    have hbc : ¬(6 ≤ st.sent_today ∧ n.priority.getD "low" ≠ "high") :=
      fun hx => absurd hx.1 (by omega)
    have hgc : c.time - t < 7200
        ∧ ¬(n.priority.getD "low" = "high" ∨ n.priority.getD "low" = "critical") := by
      refine ⟨hgap, ?_⟩
      rintro (h | h)
      · exact hh h
      · exact hc h
    unfold should_send_now admission_rules
    rw [reset_daily_counter_of_same_day c st hd, if_neg hc, if_neg hqc, if_neg hbc, hl]
    dsimp only
    rw [if_pos hgc]
  · intro c st n t hl hgap
    have hgapF : ¬(c.time - t < 7200) := not_lt.mpr hgap
    unfold should_send_now admission_rules reset_daily_counter
    by_cases hd : st.last_reset = c.date <;>
      simp [is_duplicate, hl, hd, hgapF,
        apply_ite (Prod.fst : (Bool × String) × NotifState → Bool × String)]

/-- C5 counterexample: a low-priority insight 30 minutes after the last one,
but at local hour 23: it is denied with the quiet-hours reason, which does
not state the 90 remaining minutes the claim requires. -/
theorem quiet_hours_denial_masks_gap_reason :
    (should_send_now ⟨0, 23, 10000⟩ ⟨0, 0, some 8200, []⟩ ⟨some "t", some "low"⟩).1
      = (false, "Quiet hours (22:00-7:00)")
    ∧ substringOf (("90" : String).data) (("Quiet hours (22:00-7:00)" : String).data)
        = false :=
  ⟨rfl, rfl⟩

/-- C5 witness: the same 30-minute-gap insight at noon is denied by the
minimum-gap rule with 90 minutes remaining. -/
theorem minimum_gap_denial_outside_quiet_hours_witness :
    (should_send_now ⟨0, 12, 10000⟩ ⟨0, 0, some 8200, []⟩ ⟨some "t", some "low"⟩).1
      = (false, "Too soon (wait "
          ++ toString ((7200 - ((10000 : Int) - 8200)) / 60) ++ " more minutes)") :=
  minimum_gap_denial_outside_quiet_hours.1 ⟨0, 12, 10000⟩ ⟨0, 0, some 8200, []⟩
    ⟨some "t", some "low"⟩ 8200 rfl (by decide) (by decide) (by decide) (by decide)
    rfl (by decide)
